import Mathlib

/-!
Verification of the echopath continuous narrative generation pipeline
(the story service: segment sizing, style resolution, outline generation,
segment generation) against its specification.

The service's network call (`fetch` inside `makeHackClubRequest`) and the
JavaScript standard library's `JSON.parse` are external collaborators: they
are modelled as explicit inputs — the completion outcome is an
`Except String String` (a thrown error message, or the response text) and
the parser is a function `String → Option Json` (`none` models a
`JSON.parse` exception).  Everything else is translated directly from the
source functions, keeping their names.
-/

/-- Modelled from the spec: the `StoryStyle` union lives in the `types`
module, which is not among the provided source files; the spec enumerates
its variants as NOIR, CHILDREN, HISTORICAL, FANTASY, DEFAULT. -/
inductive StoryStyle where
  | NOIR
  | CHILDREN
  | HISTORICAL
  | FANTASY
  | DEFAULT
deriving DecidableEq, Repr

/-- The `TravelMode` union `'WALKING' | 'DRIVING'` from the route planner. -/
inductive TravelMode where
  | WALKING
  | DRIVING
deriving DecidableEq, Repr

/-- `travelMode.toLowerCase()` as used when building prompts. -/
def TravelMode.toLowerCase : TravelMode → String
  | .WALKING => "walking"
  | .DRIVING => "driving"

/-- The `RouteDetails` object assembled by the route planner's
`onRouteFound` call (fields as constructed in the source). -/
structure RouteDetails where
  startAddress : String
  endAddress : String
  distance : String
  duration : String
  durationSeconds : ℚ
  travelMode : TravelMode
  voiceName : String
  storyStyle : StoryStyle

-- CONSTANTS FOR CONTINUOUS STREAMING (verbatim from the service module).

def TARGET_SEGMENT_DURATION_SEC : ℚ := 60

def WORDS_PER_MINUTE : ℚ := 145

/-- `Math.round((TARGET_SEGMENT_DURATION_SEC / 60) * WORDS_PER_MINUTE)`;
`Math.round x = ⌊x + 1/2⌋` on the rationals involved here. -/
def WORDS_PER_SEGMENT : ℤ := ⌊TARGET_SEGMENT_DURATION_SEC / 60 * WORDS_PER_MINUTE + 1/2⌋

/-- `calculateTotalSegments`:
`Math.max(1, Math.ceil(durationSeconds / TARGET_SEGMENT_DURATION_SEC))`. -/
def calculateTotalSegments (durationSeconds : ℚ) : ℤ :=
  max 1 ⌈durationSeconds / TARGET_SEGMENT_DURATION_SEC⌉

-- The five instruction strings of the style switch, verbatim from the
-- source's inline literals (including its literal byte artifacts), hoisted
-- to named constants.

def NOIR_INSTRUCTION : String :=
  "Style: Noir Thriller. Gritty, cynical, atmospheric. Use inner monologue. The traveler is a detective or someone with a troubled past. The city is a character itselfâ€”dark, rainy, hiding secrets. Use metaphors of shadows, smoke, and cold neon."

def CHILDREN_INSTRUCTION : String :=
  "Style: Children's Story. Whimsical, magical, full of wonder and gentle humor. The world is bright and alive; maybe inanimate objects (like traffic lights or trees) have slight personalities. Simple but evocative language. A sense of delightful discovery."

def HISTORICAL_INSTRUCTION : String :=
  "Style: Historical Epic. Grandiose, dramatic, and timeless. Treat the journey as a significant pilgrimage or quest in a bygone era (even though it's modern day, overlay it with historical grandeur). Use slightly archaic but understandable language. Focus on endurance, destiny, and the weight of history."

def FANTASY_INSTRUCTION : String :=
  "Style: Fantasy Adventure. Heroic, mystical, and epic. The real world is just a veil over a magical realm. Streets are ancient paths, buildings are towers or ruins. The traveler is on a vital quest. Use metaphors of magic, mythical creatures (shadows might be lurking beasts), and destiny."

def DEFAULT_STYLE_INSTRUCTION : String :=
  "Style: Immersive, 'in the moment' narration. Focus on the sensation of movement and the immediate environment."

/-- `getStyleInstruction`: the style switch (four labelled cases and a
`default` catch-all). -/
def getStyleInstruction (style : StoryStyle) : String :=
  match style with
  | .NOIR => NOIR_INSTRUCTION
  | .CHILDREN => CHILDREN_INSTRUCTION
  | .HISTORICAL => HISTORICAL_INSTRUCTION
  | .FANTASY => FANTASY_INSTRUCTION
  | _ => DEFAULT_STYLE_INSTRUCTION

/-- JSON values, the possible results of `JSON.parse`. -/
inductive Json where
  | null
  | bool (b : Bool)
  | num (q : ℚ)
  | str (s : String)
  | arr (elems : List Json)
  | obj (fields : List (String × Json))

/-- `String.prototype.trim()`: strip leading and trailing whitespace
(structural model over the character list). -/
def jsTrim (s : String) : String :=
  String.mk (((s.data.dropWhile Char.isWhitespace).reverse.dropWhile
    Char.isWhitespace).reverse)

/-- Index of the last occurrence of `c`, if any. -/
def lastIdxOf (c : Char) : List Char → Option Nat
  | [] => none
  | a :: rest =>
    match lastIdxOf c rest with
    | some i => some (i + 1)
    | none => if a = c then some 0 else none

/-- One anchored attempt of the regex `/\[.*\]/s` at the head of the list:
it succeeds when the head is `[` and some `]` follows; the greedy `.*`
backtracks from the end, so the match runs to the **last** `]`. -/
def bracketMatchAt : List Char → Option (List Char)
  | [] => none
  | c :: rest =>
    if c = '[' then
      match lastIdxOf ']' rest with
      | some j => some ('[' :: rest.take (j + 1))
      | none => none
    else none

/-- `text.match(/\[.*\]/s)`: the regex engine tries an anchored match at
each successive start position (leftmost match). -/
def bracketMatch : List Char → Option (List Char)
  | [] => none
  | c :: rest =>
    match bracketMatchAt (c :: rest) with
    | some m => some m
    | none => bracketMatch rest

/-- `const jsonString = jsonMatch ? jsonMatch[0] : text;` — the substring
handed to `JSON.parse` by `generateStoryOutline`. -/
def outlineJsonCandidate (text : String) : String :=
  match bracketMatch text.data with
  | some m => String.mk m
  | none => text

/-- The pad string pushed by the while-loop when the outline is short. -/
def OUTLINE_PAD : String := "Continue the journey towards the destination."

/-- The fallback placeholder used when outline generation fails. -/
def OUTLINE_FALLBACK : String := "Continue the immersive narrative of the journey."

/-- `Array(totalSegments).fill("Continue the immersive narrative of the journey.")`. -/
def fallbackOutline (totalSegments : Nat) : List Json :=
  List.replicate totalSegments (Json.str OUTLINE_FALLBACK)

/-- The success-path postprocessing:
`while (outline.length < totalSegments) outline.push(OUTLINE_PAD);`
followed by `outline.slice(0, totalSegments)`. -/
def padTruncateOutline (outline : List Json) (totalSegments : Nat) : List Json :=
  (outline ++ List.replicate (totalSegments - outline.length) (Json.str OUTLINE_PAD)).take
    totalSegments

/-- The prompt sent by `generateStoryOutline` (template literal written as
explicit concatenation). -/
def outlinePrompt (route : RouteDetails) (totalSegments : Nat) : String :=
  "\n    You are an expert storyteller. Write an outline for a story that is exactly "
    ++ toString totalSegments
    ++ " chapters long and has a complete cohesive story arc with a clear set up, inciting incident, rising action, climax, success, falling action, and resolution. \n\n    Your outline should be tailored to match this journey:\n\n    Journey: "
    ++ route.startAddress ++ " to " ++ route.endAddress ++ " by "
    ++ route.travelMode.toLowerCase
    ++ ".\n    Total Duration: Approx " ++ route.duration
    ++ ".\n    Total Narrative Segments needed: " ++ toString totalSegments
    ++ ".\n    \n    " ++ getStyleInstruction route.storyStyle
    ++ "\n\n    Output strictly valid JSON: An array of " ++ toString totalSegments
    ++ " strings. Example: [\"Chapter 1 summary...\", \"Chapter 2 summary...\", ...]\n    "

/-- The single user message sent by `generateStoryOutline`. -/
def outlineRequestMessages (route : RouteDetails) (totalSegments : Nat) :
    List (String × String) :=
  [("user", outlinePrompt route totalSegments)]

/-- `generateStoryOutline`, from the completion outcome onwards:
trim the response, fail on empty text, extract the regex match (or use the
whole text), `JSON.parse` it, require a non-empty array, then pad/truncate;
every failure is caught and yields the fallback outline. -/
def generateStoryOutline (parse : String → Option Json) (route : RouteDetails)
    (totalSegments : Nat) (completion : Except String String) : List Json :=
  match completion with
  | .error _ => fallbackOutline totalSegments
  | .ok response =>
    let text := jsTrim response
    if text = "" then fallbackOutline totalSegments
    else
      match parse (outlineJsonCandidate text) with
      | some (Json.arr outline) =>
        if outline.length = 0 then fallbackOutline totalSegments
        else padTruncateOutline outline totalSegments
      | _ => fallbackOutline totalSegments

instance : Inhabited RouteDetails :=
  ⟨⟨"", "", "", "", 0, .WALKING, "", .DEFAULT⟩⟩

/-- `StorySegment` as returned by `generateSegment`: `audioBuffer` is
`null` there (the buffer payload itself plays no role in these claims, so
it is abstracted to `Unit`). -/
structure StorySegment where
  index : Nat
  text : String
  audioBuffer : Option Unit

/-- `s.slice(-n)`: the trailing `min n s.length` characters of `s`
(all of `s` when `s` is shorter than `n`). -/
def jsSliceLast (s : String) (n : Nat) : String :=
  String.mk (s.data.drop (s.data.length - n))

/-- The fixed text of the context block before the spliced-in slice of
`previousContext`. -/
def CONTEXT_HEADER : String :=
  "\n      PREVIOUS NARRATIVE CONTEXT (The story so far):\n      ..."

/-- The fixed text of the context block after the spliced-in slice of
`previousContext`. -/
def CONTEXT_FOOTER : String :=
  " \n      (CONTINUE SEAMLESSLY from the above. Do not repeat it. Do not start with \"And so...\" or similar connectors every time.)\n      "

/-- `contextPrompt` in `generateSegment`: empty for the first segment
(`isFirst = segmentIndex === 1`), otherwise the context block around
`previousContext.slice(-1500)`. -/
def contextPromptFor (segmentIndex : Nat) (previousContext : String) : String :=
  if segmentIndex = 1 then ""
  else CONTEXT_HEADER ++ jsSliceLast previousContext 1500 ++ CONTEXT_FOOTER

/-- The part of `generateSegment`'s prompt template before `contextPrompt`. -/
def segmentPromptPre (route : RouteDetails)
    (segmentIndex totalSegmentsEstimate : Nat) (segmentOutline : String) : String :=
  "\n    You are an AI storytelling engine generating a continuous, immersive audio stream for a traveler.\n    Journey: "
    ++ route.startAddress ++ " to " ++ route.endAddress ++ " by "
    ++ route.travelMode.toLowerCase
    ++ ".\n    Current Status: Segment " ++ toString segmentIndex
    ++ " of approx " ++ toString totalSegmentsEstimate
    ++ ".\n    \n    " ++ getStyleInstruction route.storyStyle
    ++ "\n\n    CURRENT CHAPTER GOAL: " ++ segmentOutline
    ++ "\n\n    "

/-- The part of `generateSegment`'s prompt template after `contextPrompt`. -/
def segmentPromptPost : String :=
  "\n\n    Task: Write the next ~" ++ toString TARGET_SEGMENT_DURATION_SEC
    ++ " seconds of narration (approx " ++ toString WORDS_PER_SEGMENT
    ++ " words) based on the Current Chapter Goal.\n    Keep the narrative moving forward. This is a transient segment of a longer journey.\n\n    IMPORTANT: Output ONLY the raw narration text for this segment. Do not include titles, chapter headings, or JSON. Just the text to be spoken.\n  "

/-- The full prompt built by `generateSegment` (template literal as
explicit concatenation around `contextPrompt`). -/
def segmentPrompt (route : RouteDetails) (segmentIndex totalSegmentsEstimate : Nat)
    (segmentOutline previousContext : String) : String :=
  segmentPromptPre route segmentIndex totalSegmentsEstimate segmentOutline
    ++ contextPromptFor segmentIndex previousContext
    ++ segmentPromptPost

/-- The single user message of `generateSegment`'s outgoing request. -/
def segmentRequestMessages (route : RouteDetails)
    (segmentIndex totalSegmentsEstimate : Nat)
    (segmentOutline previousContext : String) : List (String × String) :=
  [("user", segmentPrompt route segmentIndex totalSegmentsEstimate segmentOutline
      previousContext)]

/-- `generateSegment`, from the completion outcome onwards: a thrown
request error is re-thrown (`throw error` in the catch block), an
empty/falsy trimmed response raises `"No text generated for segment."`,
and otherwise the segment is returned with the trimmed text and a `null`
audio buffer. -/
def generateSegment (route : RouteDetails)
    (segmentIndex totalSegmentsEstimate : Nat)
    (segmentOutline previousContext : String)
    (completion : Except String String) : Except String StorySegment :=
  match completion with
  | .error e => .error e
  | .ok response =>
    let text := jsTrim response
    if text = "" then .error "No text generated for segment."
    else .ok { index := segmentIndex, text := text, audioBuffer := none }

/-!
## Theorems
-/

/-- C2: for every duration `D ≥ 0` (in particular throughout the capped
range `[0, 14400]` seconds), `calculateTotalSegments D = max 1 ⌈D / 60⌉`;
in particular `D = 185` yields `4` and `D = 0` yields `1`. -/
theorem calculateTotalSegments_max_ceil (d : ℚ) (hd : 0 ≤ d) :
    calculateTotalSegments d = max 1 ⌈d / 60⌉
    ∧ calculateTotalSegments 185 = 4
    ∧ calculateTotalSegments 0 = 1 := by
  refine ⟨rfl, ?_, ?_⟩
  · have h : (⌈(185:ℚ)/60⌉ : ℤ) = 4 := by
      rw [Int.ceil_eq_iff]
      constructor <;> norm_num
    show (max 1 ⌈(185:ℚ)/60⌉ : ℤ) = 4
    rw [h]; decide
  · have h : (⌈(0:ℚ)/60⌉ : ℤ) = 0 := by norm_num
    show (max 1 ⌈(0:ℚ)/60⌉ : ℤ) = 1
    rw [h]; decide

/-- Witness for C2 at the concrete durations named by the claim. -/
theorem calculateTotalSegments_max_ceil_witness :
    calculateTotalSegments 185 = 4 ∧ calculateTotalSegments 0 = 1 :=
  ⟨(calculateTotalSegments_max_ceil 185 (by norm_num)).2.1,
   (calculateTotalSegments_max_ceil 0 le_rfl).2.2⟩

/-- C9: the Style Instruction Resolver is a pure function (in this
embedding a function, so equal inputs give equal outputs), and each of the
four enumerated styles NOIR, CHILDREN, HISTORICAL, FANTASY is bound to its
own fixed instruction string, the four strings being pairwise distinct. -/
theorem getStyleInstruction_fixed_and_distinct :
    (∀ s : StoryStyle, getStyleInstruction s = getStyleInstruction s)
    ∧ getStyleInstruction .NOIR = NOIR_INSTRUCTION
    ∧ getStyleInstruction .CHILDREN = CHILDREN_INSTRUCTION
    ∧ getStyleInstruction .HISTORICAL = HISTORICAL_INSTRUCTION
    ∧ getStyleInstruction .FANTASY = FANTASY_INSTRUCTION
    ∧ NOIR_INSTRUCTION ≠ CHILDREN_INSTRUCTION
    ∧ NOIR_INSTRUCTION ≠ HISTORICAL_INSTRUCTION
    ∧ NOIR_INSTRUCTION ≠ FANTASY_INSTRUCTION
    ∧ CHILDREN_INSTRUCTION ≠ HISTORICAL_INSTRUCTION
    ∧ CHILDREN_INSTRUCTION ≠ FANTASY_INSTRUCTION
    ∧ HISTORICAL_INSTRUCTION ≠ FANTASY_INSTRUCTION :=
  ⟨fun _ => rfl, rfl, rfl, rfl, rfl, by decide, by decide, by decide,
   by decide, by decide, by decide⟩

/-- C10: every `StoryStyle` other than NOIR, CHILDREN, HISTORICAL and
FANTASY — in particular the enumerated DEFAULT variant, which has no
dedicated case — falls through to the fixed default immersive-narration
instruction string. -/
theorem getStyleInstruction_default_catchall (s : StoryStyle)
    (h1 : s ≠ .NOIR) (h2 : s ≠ .CHILDREN) (h3 : s ≠ .HISTORICAL)
    (h4 : s ≠ .FANTASY) :
    getStyleInstruction s = DEFAULT_STYLE_INSTRUCTION := by
  cases s <;> simp_all [getStyleInstruction]

/-- Witness for C10 at the DEFAULT variant. -/
theorem getStyleInstruction_default_catchall_witness :
    getStyleInstruction .DEFAULT = DEFAULT_STYLE_INSTRUCTION :=
  getStyleInstruction_default_catchall .DEFAULT (by decide) (by decide)
    (by decide) (by decide)

/-- If `c` does not occur in `l`, `lastIdxOf` finds nothing. -/
theorem lastIdxOf_eq_none {c : Char} {l : List Char} (h : c ∉ l) :
    lastIdxOf c l = none := by
  induction l with
  | nil => rfl
  | cons a rest ih =>
    rw [List.mem_cons, not_or] at h
    simp only [lastIdxOf, ih h.2]
    exact if_neg fun hac => h.1 hac.symm

/-- The last `]` of `b ++ ']' :: c` sits at index `b.length` when `c`
holds no further `]`. -/
theorem lastIdxOf_append_last {b c : List Char} (h : ']' ∉ c) :
    lastIdxOf ']' (b ++ ']' :: c) = some b.length := by
  induction b with
  | nil => simp [lastIdxOf, lastIdxOf_eq_none h]
  | cons a rest ih => simp [lastIdxOf, ih]

/-- The anchored greedy match at a leading `[` runs to the last `]`. -/
theorem bracketMatchAt_cons {b c : List Char} (h : ']' ∉ c) :
    bracketMatchAt ('[' :: (b ++ ']' :: c)) = some ('[' :: (b ++ [']'])) := by
  simp only [bracketMatchAt, if_pos rfl, lastIdxOf_append_last h]
  rw [show b.length + 1 = b.length + 1 from rfl, List.take_append 1]
  rfl

/-- Leftmost-greedy characterisation of `text.match(/\[.*\]/s)`: writing
the text as `a ++ '[' :: b ++ ']' :: c` with no `[` before and no `]`
after, the match spans from that first `[` to that last `]`. -/
theorem bracketMatch_decomp {a b c : List Char} (ha : '[' ∉ a)
    (hc : ']' ∉ c) :
    bracketMatch (a ++ '[' :: (b ++ ']' :: c)) = some ('[' :: (b ++ [']'])) := by
  induction a with
  | nil => simp only [List.nil_append, bracketMatch, bracketMatchAt_cons hc]
  | cons x rest ih =>
    rw [List.mem_cons, not_or] at ha
    have hx : bracketMatchAt (x :: (rest ++ '[' :: (b ++ ']' :: c))) = none := by
      simp only [bracketMatchAt]
      exact if_neg fun hxb => ha.1 hxb.symm
    rw [List.cons_append, bracketMatch, hx]
    exact ih ha.2

/-- Pad-then-truncate always produces exactly the requested length. -/
theorem padTruncateOutline_length (l : List Json) (N : Nat) :
    (padTruncateOutline l N).length = N := by
  simp [padTruncateOutline]
  omega

/-- When the parsed outline is short, only padding happens. -/
theorem padTruncateOutline_of_le {l : List Json} {N : Nat}
    (h : l.length ≤ N) :
    padTruncateOutline l N
      = l ++ List.replicate (N - l.length) (Json.str OUTLINE_PAD) := by
  apply List.take_of_length_le
  simp
  omega

/-- When the parsed outline is long, only truncation happens. -/
theorem padTruncateOutline_of_ge {l : List Json} {N : Nat}
    (h : N ≤ l.length) :
    padTruncateOutline l N = l.take N :=
  List.take_append_of_le_length h

/-- Every element of the pad-truncated outline is an element of the
parsed outline or the fixed pad string. -/
theorem padTruncateOutline_mem {l : List Json} {N : Nat} {y : Json}
    (hy : y ∈ padTruncateOutline l N) :
    y ∈ l ∨ y = Json.str OUTLINE_PAD := by
  have := List.mem_of_mem_take hy
  rcases List.mem_append.mp this with h | h
  · exact Or.inl h
  · exact Or.inr (List.eq_of_mem_replicate h)

/-- C1: for every journey and every requested segment count `N ≥ 1` (and
every completion outcome and parse behaviour), `generateStoryOutline`
returns exactly `N` entries; when the parsed array has fewer than `N`
elements it is padded at the end with the fixed continuation string up to
length `N`, when it has more it is truncated to its first `N` elements,
and string entries stay strings (the pad entries being strings). -/
theorem generateStoryOutline_length_pad_truncate
    (parse : String → Option Json) (route : RouteDetails) (N : Nat)
    (completion : Except String String) (hN : 1 ≤ N) :
    (generateStoryOutline parse route N completion).length = N
    ∧ (∀ r l, completion = Except.ok r → jsTrim r ≠ "" →
        parse (outlineJsonCandidate (jsTrim r)) = some (Json.arr l) →
        l ≠ [] →
        (l.length ≤ N →
          generateStoryOutline parse route N completion
            = l ++ List.replicate (N - l.length) (Json.str OUTLINE_PAD))
        ∧ (N ≤ l.length →
          generateStoryOutline parse route N completion = l.take N)
        ∧ ((∀ x ∈ l, ∃ s, x = Json.str s) →
          ∀ y ∈ generateStoryOutline parse route N completion,
            ∃ s, y = Json.str s)) := by
  have hmain : ∀ r l, completion = Except.ok r → jsTrim r ≠ "" →
      parse (outlineJsonCandidate (jsTrim r)) = some (Json.arr l) →
      l ≠ [] →
      generateStoryOutline parse route N completion = padTruncateOutline l N := by
    intro r l hr ht hp hl
    subst hr
    have hlen : ¬ l.length = 0 := fun h0 => hl (List.length_eq_zero.mp h0)
    simp only [generateStoryOutline, if_neg ht, hp, if_neg hlen]
  constructor
  · match hcpl : completion with
    | .error e => simp [generateStoryOutline, fallbackOutline]
    | .ok r =>
      by_cases ht : jsTrim r = ""
      · simp [generateStoryOutline, ht, fallbackOutline]
      · match hp : parse (outlineJsonCandidate (jsTrim r)) with
        | none => simp [generateStoryOutline, ht, hp, fallbackOutline]
        | some j =>
          match j with
          | .null | .bool _ | .num _ | .str _ | .obj _ =>
            simp [generateStoryOutline, ht, hp, fallbackOutline]
          | .arr l =>
            by_cases hl : l.length = 0
            · simp [generateStoryOutline, ht, hp, hl, fallbackOutline]
            · have := hmain r l rfl ht hp
                (fun h0 => hl (by simp [h0]))
              rw [this, padTruncateOutline_length]
  · intro r l hr ht hp hl
    have heq := hmain r l hr ht hp hl
    refine ⟨fun hle => ?_, fun hge => ?_, fun hs y hy => ?_⟩
    · rw [heq, padTruncateOutline_of_le hle]
    · rw [heq, padTruncateOutline_of_ge hge]
    · rw [heq] at hy
      rcases padTruncateOutline_mem hy with h | h
      · exact hs y h
      · exact ⟨OUTLINE_PAD, h⟩

/-- Witness for C1: a one-element parsed outline with `N = 3` gives three
entries (the element plus two pads). -/
theorem generateStoryOutline_length_pad_truncate_witness :
    (generateStoryOutline (fun _ => some (Json.arr [Json.str "a"])) default 3
      (Except.ok "[\"a\"]")).length = 3 :=
  (generateStoryOutline_length_pad_truncate
    (fun _ => some (Json.arr [Json.str "a"])) default 3
    (Except.ok "[\"a\"]") (by decide)).1

/-- Shared case analysis: every failure mode of the outline stage lands in
the fallback branch. -/
theorem outline_fallback_cases
    (parse : String → Option Json) (route : RouteDetails) (N : Nat)
    (completion : Except String String)
    (h : (∃ e, completion = Except.error e)
      ∨ ∃ r, completion = Except.ok r ∧
          (jsTrim r = ""
            ∨ parse (outlineJsonCandidate (jsTrim r)) = none
            ∨ (∃ j, parse (outlineJsonCandidate (jsTrim r)) = some j
                ∧ ∀ l, j ≠ Json.arr l)
            ∨ parse (outlineJsonCandidate (jsTrim r)) = some (Json.arr []))) :
    generateStoryOutline parse route N completion
      = List.replicate N (Json.str OUTLINE_FALLBACK) := by
  rcases h with ⟨e, he⟩ | ⟨r, hr, hcase⟩
  · subst he; rfl
  · subst hr
    rcases hcase with h1 | h2 | ⟨j, hj, hna⟩ | h4
    · simp [generateStoryOutline, h1, fallbackOutline]
    · by_cases ht : jsTrim r = ""
      · simp [generateStoryOutline, ht, fallbackOutline]
      · simp [generateStoryOutline, ht, h2, fallbackOutline]
    · by_cases ht : jsTrim r = ""
      · simp [generateStoryOutline, ht, fallbackOutline]
      · match j, hna with
        | .null, _ | .bool _, _ | .num _, _ | .str _, _ | .obj _, _ =>
          simp [generateStoryOutline, ht, hj, fallbackOutline]
        | .arr l, hna => exact absurd rfl (hna l)
    · by_cases ht : jsTrim r = ""
      · simp [generateStoryOutline, ht, fallbackOutline]
      · simp [generateStoryOutline, ht, h4, fallbackOutline]

/-- C3: `generateStoryOutline` never propagates a failure past its own
boundary (its embedding is a total function): whenever the completion
request throws, or the response trims to empty, or `JSON.parse` fails, or
the parsed value is not an array, or it is the empty array, the result is
exactly `N` copies of the fixed generic placeholder. -/
theorem generateStoryOutline_fallback_on_failure
    (parse : String → Option Json) (route : RouteDetails) (N : Nat)
    (completion : Except String String)
    (h : (∃ e, completion = Except.error e)
      ∨ ∃ r, completion = Except.ok r ∧
          (jsTrim r = ""
            ∨ parse (outlineJsonCandidate (jsTrim r)) = none
            ∨ (∃ j, parse (outlineJsonCandidate (jsTrim r)) = some j
                ∧ ∀ l, j ≠ Json.arr l)
            ∨ parse (outlineJsonCandidate (jsTrim r)) = some (Json.arr []))) :
    generateStoryOutline parse route N completion
      = List.replicate N (Json.str OUTLINE_FALLBACK) :=
  outline_fallback_cases parse route N completion h

/-- Witness for C3: a thrown network error still yields two placeholder
entries. -/
theorem generateStoryOutline_fallback_on_failure_witness :
    generateStoryOutline (fun _ => none) default 2
      (Except.error "Hack Club API error: 500 Internal Server Error")
      = List.replicate 2 (Json.str OUTLINE_FALLBACK) :=
  generateStoryOutline_fallback_on_failure (fun _ => none) default 2
    (Except.error "Hack Club API error: 500 Internal Server Error")
    (Or.inl ⟨_, rfl⟩)

/-- C6 (corrected), counterexample to the claim as stated: for the
response text `["one"] and more]`, the first well-formed array-looking
substring is `["one"]`, but the substring the code hands to `JSON.parse`
is the whole `["one"] and more]` (the greedy regex runs to the last `]`),
not `["one"]`. -/
theorem outlineJsonCandidate_not_first_array :
    outlineJsonCandidate "[\"one\"] and more]" = "[\"one\"] and more]"
    ∧ outlineJsonCandidate "[\"one\"] and more]" ≠ "[\"one\"]" := by
  constructor
  · rfl
  · decide

/-- C6 (amended): the extracted substring runs from the first `[` to the
**last** `]` of the response (the regex `/\[.*\]/s` is greedy), so text
after the first well-formed array that contains further `]` characters is
included in the parsed substring. -/
theorem outlineJsonCandidate_greedy (s : String) (a b c : List Char)
    (hs : s.data = a ++ '[' :: (b ++ ']' :: c)) (ha : '[' ∉ a)
    (hc : ']' ∉ c) :
    outlineJsonCandidate s = String.mk ('[' :: (b ++ [']'])) := by
  unfold outlineJsonCandidate
  rw [hs, bracketMatch_decomp ha hc]

/-- Witness for the amended C6: on `["one"] and more]` the match spans the
whole text, to the final `]`. -/
theorem outlineJsonCandidate_greedy_witness :
    outlineJsonCandidate "[\"one\"] and more]"
      = String.mk ('[' :: ("\"one\"] and more".data ++ [']'])) :=
  outlineJsonCandidate_greedy "[\"one\"] and more]" [] "\"one\"] and more".data []
    (by decide) (by decide) (by decide)

/-- C7 (corrected), counterexample to the claim as stated: a parsed value
that is a non-empty array holding a non-string element (here the number
`1`, as `JSON.parse` returns on the response `[1]`) **does** take the
success path: the result is that array, not the fallback outline. -/
theorem generateStoryOutline_accepts_nonstring_array :
    generateStoryOutline (fun _ => some (Json.arr [Json.num 1])) default 1
      (Except.ok "[1]") = [Json.num 1]
    ∧ generateStoryOutline (fun _ => some (Json.arr [Json.num 1])) default 1
      (Except.ok "[1]") ≠ List.replicate 1 (Json.str OUTLINE_FALLBACK) := by
  refine ⟨rfl, fun h => ?_⟩
  have h1 : generateStoryOutline (fun _ => some (Json.arr [Json.num 1]))
      default 1 (Except.ok "[1]") = [Json.num 1] := rfl
  rw [h1] at h
  simp [List.replicate] at h

/-- C7 (amended): after parsing, `generateStoryOutline` validates only
that the value is an array and that it is non-empty — both rejections
yield the fallback policy — while element types are not checked: any
non-empty array, whatever its elements, takes the success path. -/
theorem generateStoryOutline_validation
    (parse : String → Option Json) (route : RouteDetails) (N : Nat)
    (completion : Except String String) (r : String) (j : Json)
    (hr : completion = Except.ok r) (ht : jsTrim r ≠ "")
    (hp : parse (outlineJsonCandidate (jsTrim r)) = some j) :
    ((∀ l, j ≠ Json.arr l) →
      generateStoryOutline parse route N completion
        = List.replicate N (Json.str OUTLINE_FALLBACK))
    ∧ (j = Json.arr [] →
      generateStoryOutline parse route N completion
        = List.replicate N (Json.str OUTLINE_FALLBACK))
    ∧ (∀ l, j = Json.arr l → l ≠ [] →
      generateStoryOutline parse route N completion
        = padTruncateOutline l N) := by
  subst hr
  refine ⟨fun hna => ?_, fun harr => ?_, fun l harr hl => ?_⟩
  · exact outline_fallback_cases parse route N _
      (Or.inr ⟨r, rfl, Or.inr (Or.inr (Or.inl ⟨j, hp, hna⟩))⟩)
  · subst harr
    exact outline_fallback_cases parse route N _
      (Or.inr ⟨r, rfl, Or.inr (Or.inr (Or.inr hp))⟩)
  · subst harr
    have hlen : ¬ l.length = 0 := fun h0 => hl (List.length_eq_zero.mp h0)
    simp only [generateStoryOutline, if_neg ht, hp, if_neg hlen]

/-- Witness for the amended C7: a parsed value that is a bare number is
rejected (fallback), exercising the array check at a concrete input. -/
theorem generateStoryOutline_validation_witness :
    generateStoryOutline (fun _ => some (Json.num 2)) default 1
      (Except.ok "2") = List.replicate 1 (Json.str OUTLINE_FALLBACK) :=
  (generateStoryOutline_validation (fun _ => some (Json.num 2)) default 1
    (Except.ok "2") "2" (Json.num 2) rfl (by decide) rfl).1
    (fun l h => Json.noConfusion h)

/-- C4: `generateSegment` surfaces failures instead of masking them: if
the completion request throws, or the returned text is empty after
trimming, the result is a typed failure (`Except.error`), never a
placeholder segment — in particular the failure is distinguishable from
any success, including a success carrying an empty text string. -/
theorem generateSegment_surfaces_failure (route : RouteDetails)
    (segmentIndex totalSegmentsEstimate : Nat)
    (segmentOutline previousContext : String)
    (completion : Except String String)
    (h : (∃ e, completion = Except.error e)
      ∨ ∃ r, completion = Except.ok r ∧ jsTrim r = "") :
    (∃ msg, generateSegment route segmentIndex totalSegmentsEstimate
      segmentOutline previousContext completion = Except.error msg)
    ∧ ∀ seg, generateSegment route segmentIndex totalSegmentsEstimate
        segmentOutline previousContext completion ≠ Except.ok seg := by
  rcases h with ⟨e, he⟩ | ⟨r, hr, ht⟩
  · subst he
    exact ⟨⟨e, rfl⟩, fun seg hseg => Except.noConfusion hseg⟩
  · subst hr
    have herr : generateSegment route segmentIndex totalSegmentsEstimate
        segmentOutline previousContext (Except.ok r)
          = Except.error "No text generated for segment." := by
      simp only [generateSegment, if_pos ht]
    exact ⟨⟨_, herr⟩, fun seg hseg => Except.noConfusion (herr ▸ hseg)⟩

/-- Witness for C4: a thrown request error is re-thrown, and the outcome
differs from the successful segment that carries an empty text string. -/
theorem generateSegment_surfaces_failure_witness :
    (∃ msg, generateSegment default 2 4 "goal" "prior"
      (Except.error "Hack Club API error: 500") = Except.error msg)
    ∧ generateSegment default 2 4 "goal" "prior"
        (Except.error "Hack Club API error: 500")
        ≠ Except.ok ⟨2, "", none⟩ :=
  ⟨(generateSegment_surfaces_failure default 2 4 "goal" "prior"
      (Except.error "Hack Club API error: 500") (Or.inl ⟨_, rfl⟩)).1,
   (generateSegment_surfaces_failure default 2 4 "goal" "prior"
      (Except.error "Hack Club API error: 500") (Or.inl ⟨_, rfl⟩)).2
      ⟨2, "", none⟩⟩

/-- Reading the character list back out of `String.mk` is the identity. -/
theorem mk_data (l : List Char) : (String.mk l).data = l := rfl

/-- The length of `String.mk l` is the length of `l`. -/
theorem mk_length (l : List Char) : (String.mk l).length = l.length := rfl

/-- C5: for every segment with index `≠ 1` the context block spliced into
`generateSegment`'s outgoing request is built around exactly
`previousContext.slice(-1500)` — a suffix of `previousContext` of length
`min 1500 previousContext.length` (all of it when shorter than 1500, its
last 1500 characters when longer, e.g. length 2000 → 1500) — while for
index `= 1` the context block is empty, regardless of `previousContext`;
the request is a single user message around that block. -/
theorem segmentPrompt_context_window (route : RouteDetails)
    (segmentIndex totalSegmentsEstimate : Nat)
    (segmentOutline previousContext : String) :
    (segmentIndex = 1 → contextPromptFor segmentIndex previousContext = "")
    ∧ (segmentIndex ≠ 1 →
        contextPromptFor segmentIndex previousContext
          = CONTEXT_HEADER ++ jsSliceLast previousContext 1500
              ++ CONTEXT_FOOTER)
    ∧ (jsSliceLast previousContext 1500).data <:+ previousContext.data
    ∧ (jsSliceLast previousContext 1500).length
        = min 1500 previousContext.length
    ∧ (previousContext.length = 2000 →
        (jsSliceLast previousContext 1500).length = 1500)
    ∧ (previousContext.length ≤ 1500 →
        jsSliceLast previousContext 1500 = previousContext)
    ∧ segmentRequestMessages route segmentIndex totalSegmentsEstimate
        segmentOutline previousContext
        = [("user",
            segmentPromptPre route segmentIndex totalSegmentsEstimate
                segmentOutline
              ++ contextPromptFor segmentIndex previousContext
              ++ segmentPromptPost)] := by
  have hlen : (jsSliceLast previousContext 1500).length
      = min 1500 previousContext.length := by
    show (previousContext.data.drop (previousContext.data.length - 1500)).length
      = min 1500 previousContext.data.length
    rw [List.length_drop]
    omega
  refine ⟨fun h1 => ?_, fun h2 => ?_, ?_, hlen, fun h2000 => ?_, fun hle => ?_, rfl⟩
  · simp [contextPromptFor, h1]
  · simp [contextPromptFor, h2]
  · simp only [jsSliceLast, mk_data]
    exact List.drop_suffix _ _
  · rw [hlen]
    have : previousContext.data.length = 2000 := h2000
    omega
  · have hz : previousContext.data.length - 1500 = 0 := by
      have : previousContext.data.length ≤ 1500 := hle
      omega
    show String.mk (previousContext.data.drop (previousContext.data.length - 1500))
      = previousContext
    rw [hz, List.drop_zero]

/-- Witness for C5 at concrete inputs: index 1 yields no context block; at
index 2 the block wraps the slice; a 2000-character context is cut to its
last 1500 characters; a short context is included whole. -/
theorem segmentPrompt_context_window_witness :
    contextPromptFor 1 "abc" = ""
    ∧ contextPromptFor 2 "abc"
        = CONTEXT_HEADER ++ jsSliceLast "abc" 1500 ++ CONTEXT_FOOTER
    ∧ jsSliceLast "abc" 1500 = "abc"
    ∧ (jsSliceLast (String.mk (List.replicate 2000 'a')) 1500).length = 1500 :=
  ⟨(segmentPrompt_context_window default 1 4 "g" "abc").1 rfl,
   (segmentPrompt_context_window default 2 4 "g" "abc").2.1 (by decide),
   (segmentPrompt_context_window default 2 4 "g" "abc").2.2.2.2.2.1 (by decide),
   (segmentPrompt_context_window default 2 4 "g"
      (String.mk (List.replicate 2000 'a'))).2.2.2.2.1
      (by rw [mk_length, List.length_replicate])⟩
